import Mathlib

/-!
Shallow embedding of the `ai-cooking-agent` repository's core:
the data model (`src/cooking/models.py`), the search tool
(`src/cooking/tools.py`) and the five workflow steps assembled into a
linear pipeline (`src/cooking/agents.py`).  External LLM calls are
modelled as oracle functions supplied as parameters.
-/

namespace Cooking

/-! ## Python string helpers

Python's `str.strip()` (used by `Recipe.validate_cooking_time`) and
`str.endswith` are embedded over `List Char`. -/

/-- The ASCII whitespace characters stripped by Python's `str.strip()`. -/
def isPyWS (c : Char) : Bool :=
  c = ' ' || c = '\t' || c = '\n' || c = '\x0d' || c = '\x0b' || c = '\x0c'

/-- Strip trailing whitespace (Python `str.rstrip()`), over char lists. -/
def stripRL (l : List Char) : List Char :=
  (l.reverse.dropWhile isPyWS).reverse

/-- Strip leading and trailing whitespace (Python `str.strip()`), over char lists. -/
def stripLR (l : List Char) : List Char :=
  stripRL (l.dropWhile isPyWS)

/-- Python `str.strip()` on strings. -/
def pyStrip (s : String) : String :=
  ⟨stripLR s.data⟩

/-- Python `s.endswith(sfx)` on strings. -/
def pyEndsWith (s sfx : String) : Bool :=
  sfx.data.isSuffixOf s.data

/-- Python `str.lower()` on strings, as a character-wise map. -/
def pyLower (s : String) : String :=
  ⟨s.data.map Char.toLower⟩

/-! ## Data model (`src/cooking/models.py`) -/

/-- `Recipe` from `models.py`: the structured recipe produced mid-pipeline. -/
structure Recipe where
  name : String
  ingredients : List String
  steps : List String
  required_tools : List String
  cooking_time : String
  difficulty : String
  servings : Int
deriving DecidableEq, Repr

/-- `Recipe.validate_difficulty`: lower-case, then require membership in
`{easy, medium, hard}`. -/
def validate_difficulty (v : String) : Except String String :=
  let v := pyLower v
  if v = "easy" ∨ v = "medium" ∨ v = "hard" then .ok v
  else .error "Difficulty must be one of: easy, medium, hard"

/-- `Recipe.validate_servings`: require a positive number. -/
def validate_servings (v : Int) : Except String Int :=
  if v < 1 then .error "Servings must be a positive number" else .ok v

/-- `Recipe.validate_cooking_time`: if the stripped value does not end with
`"minutes"`, return the stripped value with `" minutes"` appended; otherwise
return the value unchanged. -/
def validate_cooking_time (v : String) : String :=
  if pyEndsWith (pyStrip v) "minutes" then v else pyStrip v ++ " minutes"

/-- Constructing a `Recipe` runs the three field validators (pydantic model
construction). -/
def mkRecipe (name : String) (ingredients steps required_tools : List String)
    (cooking_time difficulty : String) (servings : Int) : Except String Recipe := do
  let d ← validate_difficulty difficulty
  let sv ← validate_servings servings
  .ok { name := name, ingredients := ingredients, steps := steps,
        required_tools := required_tools,
        cooking_time := validate_cooking_time cooking_time,
        difficulty := d, servings := sv }

/-- `ToolSet` from `models.py`: the available kitchen tools. -/
structure ToolSet where
  available_tools : List String
deriving DecidableEq, Repr

/-- The default `available_tools` list of `ToolSet`. -/
def defaultToolSet : ToolSet :=
  ⟨["Spatula", "Frying Pan", "Little Pot", "Stovetop", "Whisk", "Knife",
    "Ladle", "Spoon"]⟩

/-- `ToolSet.can_cook_recipe`: `True` for an absent recipe, otherwise the
set of lower-cased required tools must be a subset of the set of lower-cased
available tools. -/
def ToolSet.can_cook_recipe (ts : ToolSet) (recipe : Option Recipe) : Bool :=
  match recipe with
  | none => true
  | some r =>
    r.required_tools.all (fun t =>
      (ts.available_tools.map pyLower).contains (pyLower t))

/-- `AgentState` from `models.py`: the record threaded through the workflow. -/
structure AgentState where
  query : String
  is_cooking_related : Bool := false
  needs_research : Bool := false
  research_results : List String := []
  recipe : Option Recipe := none
  reasoning_chain : List String := []
  final_response : Option String := none
deriving DecidableEq, Repr

/-- The initial state built from a raw query (`AgentState(query=query)`). -/
def initState (q : String) : AgentState := { query := q }

/-! ## Oracles

The five external capabilities created by `create_tools` in
`src/cooking/tools.py`, at the boundary at which `agents.py` invokes them
(`tools[i].func`). -/

/-- The external oracles the pipeline steps call. -/
structure Oracles where
  classify : String → Bool
  needsResearch : String → Bool
  search : String → List String
  parseRecipe : List String → Option Recipe
  genResponse : String → Option Recipe → ToolSet → String

/-! ## Pipeline steps (`src/cooking/agents.py`) -/

/-- The fixed refusal text set by `generate_response` for non-cooking queries. -/
def refusalText : String :=
  "I apologize, but I can only help with cooking-related questions. Please ask me about recipes, cooking techniques, or kitchen tools."

/-- `classify_query`: call the classification oracle, set
`is_cooking_related`, append one reasoning-chain entry. -/
def classify_query (o : Oracles) (s : AgentState) : AgentState :=
  let is_cooking := o.classify s.query
  { s with
    is_cooking_related := is_cooking,
    reasoning_chain := s.reasoning_chain ++
      [if is_cooking then "Query classification: cooking-related"
       else "Query classification: not cooking-related"] }

/-- `check_research_needed`: skip when not cooking-related; otherwise call the
research-need oracle, set `needs_research`, append one entry. -/
def check_research_needed (o : Oracles) (s : AgentState) : AgentState :=
  if s.is_cooking_related then
    let nr := o.needsResearch s.query
    { s with
      needs_research := nr,
      reasoning_chain := s.reasoning_chain ++
        [if nr then "Research needed" else "Research not needed"] }
  else s

/-- `do_research`: skip when research is not needed; otherwise call the search
oracle.  On an empty result set `research_results := []` and append nothing;
on a non-empty result set it and append `"Performed recipe research"`. -/
def do_research (o : Oracles) (s : AgentState) : AgentState :=
  if s.needs_research then
    let results := o.search s.query
    if results.isEmpty then { s with research_results := [] }
    else
      { s with
        research_results := results,
        reasoning_chain := s.reasoning_chain ++ ["Performed recipe research"] }
  else s

/-- `parse_results`: skip when `research_results` is empty; otherwise call the
recipe-parsing oracle, set `recipe`, append a success/failure entry. -/
def parse_results (o : Oracles) (s : AgentState) : AgentState :=
  if s.research_results.isEmpty then s
  else
    let recipe := o.parseRecipe s.research_results
    { s with
      recipe := recipe,
      reasoning_chain := s.reasoning_chain ++
        [if recipe.isSome then "Recipe parsed successfully"
         else "Recipe parsing failed"] }

/-- `generate_response`: for a non-cooking query set `final_response` to the
fixed refusal text (no oracle call, no append); otherwise call the
response-generation oracle, raise `ValueError` on an empty response, and on a
non-empty one set `final_response` and append `"Generated final response"`. -/
def generate_response (o : Oracles) (s : AgentState) : Except String AgentState :=
  if s.is_cooking_related then
    let response := o.genResponse s.query s.recipe defaultToolSet
    if response = "" then .error "Response generation failed"
    else
      .ok { s with
            final_response := some response,
            reasoning_chain := s.reasoning_chain ++ ["Generated final response"] }
  else .ok { s with final_response := some refusalText }

/-- The compiled workflow of `create_cooking_graph`: the five steps run in the
fixed order `classify → check_research → research → parse → respond`. -/
def runPipeline (o : Oracles) (s : AgentState) : Except String AgentState :=
  generate_response o
    (parse_results o (do_research o (check_research_needed o (classify_query o s))))

/-! ## The search tool (`src/cooking/tools.py`, `search_recipes`) -/

/-- One result of the underlying DuckDuckGo text search (a dict with a
`body` field). -/
structure SearchResult where
  body : String
deriving DecidableEq, Repr

/-- `search_recipes`: query the underlying search with `"recipe " + query` and
`max_results=3`, then project the `body` of each result.  The underlying
search may raise; `search_recipes` has no handler, so errors propagate. -/
def search_recipes (ddgsText : String → Nat → Except String (List SearchResult))
    (query : String) : Except String (List String) :=
  (ddgsText ("recipe " ++ query) 3).map (fun results => results.map SearchResult.body)

/-! ## Trace bookkeeping for the reasoning-chain invariant -/

/-- The reasoning-chain entry `classify_query` appends on a state. -/
def classifyEntry (o : Oracles) (s : AgentState) : List String :=
  [if o.classify s.query then "Query classification: cooking-related"
   else "Query classification: not cooking-related"]

/-- The reasoning-chain entries `check_research_needed` appends on a state. -/
def checkEntries (o : Oracles) (s : AgentState) : List String :=
  if s.is_cooking_related then
    [if o.needsResearch s.query then "Research needed" else "Research not needed"]
  else []

/-- The reasoning-chain entries `do_research` appends on a state. -/
def researchEntries (o : Oracles) (s : AgentState) : List String :=
  if s.needs_research then
    if (o.search s.query).isEmpty then [] else ["Performed recipe research"]
  else []

/-- The reasoning-chain entries `parse_results` appends on a state. -/
def parseEntries (o : Oracles) (s : AgentState) : List String :=
  if s.research_results.isEmpty then []
  else
    [if (o.parseRecipe s.research_results).isSome then
       "Recipe parsed successfully"
     else "Recipe parsing failed"]

/-- The reasoning-chain entries a successful `generate_response` appends. -/
def respondEntries (s : AgentState) : List String :=
  if s.is_cooking_related then ["Generated final response"] else []

/-- The reasoning-chain entries the five steps append during one pipeline
run, computed from the oracles and the initial state by mirroring each
step's append condition on the intermediate states. -/
def appendedEntries (o : Oracles) (s0 : AgentState) : List String :=
  let s1 := classify_query o s0
  let s2 := check_research_needed o s1
  let s3 := do_research o s2
  let s4 := parse_results o s3
  classifyEntry o s0 ++ checkEntries o s1 ++ researchEntries o s2
    ++ parseEntries o s3 ++ respondEntries s4

/-- The number of steps of one pipeline run that did not return early via
their skip guard: `classify_query` always works; `check_research_needed`
works when the query is cooking-related; `do_research` works when research
is needed (it calls the search oracle and assigns `research_results` even
when the search comes back empty); `parse_results` works when
`research_results` is non-empty; `generate_response` performs its oracle
work when the query is cooking-related. -/
def nonSkippedCount (o : Oracles) (s0 : AgentState) : Nat :=
  let s1 := classify_query o s0
  let s2 := check_research_needed o s1
  let s3 := do_research o s2
  let s4 := parse_results o s3
  1 + (if s1.is_cooking_related then 1 else 0)
    + (if s2.needs_research then 1 else 0)
    + (if s3.research_results.isEmpty then 0 else 1)
    + (if s4.is_cooking_related then 1 else 0)

/-! ## Concrete oracles and data used in witnesses and counterexamples -/

/-- Oracles whose classifier rejects every query. -/
def oReject : Oracles :=
  { classify := fun _ => false, needsResearch := fun _ => false,
    search := fun _ => [], parseRecipe := fun _ => none,
    genResponse := fun _ _ _ => "ok" }

/-- A concrete well-formed recipe. -/
def sampleRecipe : Recipe :=
  { name := "Pancakes", ingredients := ["flour", "milk", "egg"],
    steps := ["mix", "fry"], required_tools := ["Whisk", "Frying Pan"],
    cooking_time := "20 minutes", difficulty := "easy", servings := 2 }

/-- Oracles for a fully successful cooking run: classification and
research-need both true, three search snippets, a parsed recipe, and a
non-empty generated response. -/
def oFull : Oracles :=
  { classify := fun _ => true, needsResearch := fun _ => true,
    search := fun _ => ["snippet1", "snippet2", "snippet3"],
    parseRecipe := fun _ => some sampleRecipe,
    genResponse := fun _ _ _ => "Here is your recipe." }

/-- The final state of the pipeline under `oFull` on the query
`"risotto"`. -/
def fullRunState : AgentState :=
  { query := "risotto", is_cooking_related := true, needs_research := true,
    research_results := ["snippet1", "snippet2", "snippet3"],
    recipe := some sampleRecipe,
    reasoning_chain := ["Query classification: cooking-related",
      "Research needed", "Performed recipe research",
      "Recipe parsed successfully", "Generated final response"],
    final_response := some "Here is your recipe." }

/-- Oracles for a cooking run whose search comes back empty. -/
def oEmptySearch : Oracles :=
  { classify := fun _ => true, needsResearch := fun _ => true,
    search := fun _ => [], parseRecipe := fun _ => none,
    genResponse := fun _ _ _ => "ok" }

/-- Oracles whose response generator returns empty content. -/
def oEmptyResponse : Oracles :=
  { classify := fun _ => true, needsResearch := fun _ => false,
    search := fun _ => [], parseRecipe := fun _ => none,
    genResponse := fun _ _ _ => "" }

/-- An underlying search that raises on every call. -/
def ddgsFail : String → Nat → Except String (List SearchResult) :=
  fun _ _ => .error "DuckDuckGoSearchException"

/-- The two-tool toolset of the capability-check test scenario. -/
def knifePanToolSet : ToolSet := ⟨["Knife", "Frying Pan"]⟩

/-- A recipe requiring only a knife. -/
def recipeKnife : Recipe := { sampleRecipe with required_tools := ["knife"] }

/-- A recipe requiring an oven. -/
def recipeOven : Recipe := { sampleRecipe with required_tools := ["oven"] }

/-! ## Helper lemmas on the Python string embedding -/

theorem dropWhile_append_minutes (x : List Char) :
    ∃ ys, (x ++ ' ' :: "minutes".data).dropWhile isPyWS = ys ++ "minutes".data := by
  induction x with
  | nil => exact ⟨[], by decide⟩
  | cons a t ih =>
    by_cases h : isPyWS a = true
    · obtain ⟨ys, hy⟩ := ih
      exact ⟨ys, by simpa [List.dropWhile_cons, h] using hy⟩
    · exact ⟨a :: (t ++ [' ']), by simp [List.dropWhile_cons, h]⟩

theorem stripRL_append_minutes (ys : List Char) :
    stripRL (ys ++ "minutes".data) = ys ++ "minutes".data := by
  have h1 : ("minutes".data).reverse = 's' :: "etunim".data := by decide
  have h2 : isPyWS 's' = false := by decide
  unfold stripRL
  rw [List.reverse_append, h1, List.cons_append, List.dropWhile_cons, h2]
  simp only [Bool.false_eq_true, if_false]
  rw [← List.cons_append, ← h1, ← List.reverse_append, List.reverse_reverse]

theorem stripLR_appended_minutes (v : List Char) :
    ∃ ys, stripLR (stripLR v ++ ' ' :: "minutes".data) = ys ++ "minutes".data := by
  obtain ⟨ys, hy⟩ := dropWhile_append_minutes (stripLR v)
  refine ⟨ys, ?_⟩
  have hdef : stripLR (stripLR v ++ ' ' :: "minutes".data) =
      stripRL ((stripLR v ++ ' ' :: "minutes".data).dropWhile isPyWS) := rfl
  rw [hdef, hy]
  exact stripRL_append_minutes ys

theorem validate_difficulty_isOk (v : String) :
    (validate_difficulty v).isOk = true ↔
      (pyLower v = "easy" ∨ pyLower v = "medium" ∨ pyLower v = "hard") := by
  unfold validate_difficulty
  by_cases h : pyLower v = "easy" ∨ pyLower v = "medium" ∨ pyLower v = "hard"
  · simp only [if_pos h, Except.isOk, Except.toBool]
    simpa using h
  · simp only [if_neg h, Except.isOk, Except.toBool]
    simpa using h

theorem validate_servings_isOk (v : Int) :
    (validate_servings v).isOk = true ↔ 1 ≤ v := by
  unfold validate_servings
  by_cases h : v < 1
  · simp only [if_pos h, Except.isOk, Except.toBool]
    simp only [Bool.false_eq_true, false_iff]
    omega
  · simp only [if_neg h, Except.isOk, Except.toBool]
    simp only [true_iff]
    omega

theorem validate_cooking_time_of_ends (w : String)
    (h : pyEndsWith (pyStrip w) "minutes" = true) :
    validate_cooking_time w = w := by
  unfold validate_cooking_time
  simp [h]

theorem validate_cooking_time_ends (v : String) :
    pyEndsWith (pyStrip (validate_cooking_time v)) "minutes" = true := by
  unfold validate_cooking_time
  by_cases h : pyEndsWith (pyStrip v) "minutes" = true
  · simp [h]
  · simp only [h, Bool.false_eq_true, if_false]
    obtain ⟨ys, hy⟩ := stripLR_appended_minutes v.data
    have hd : (pyStrip v ++ " minutes").data =
        stripLR v.data ++ ' ' :: "minutes".data := by
      rw [String.data_append]
      rfl
    show ("minutes".data).isSuffixOf (stripLR (pyStrip v ++ " minutes").data) = true
    rw [hd, hy]
    simp [List.isSuffixOf]

/-! ## Claim theorems -/

/-- C10: the cooking-time normalization is idempotent: applying
`Recipe.validate_cooking_time` to its own output returns the output
unchanged, because every normalized value ends (after stripping) with
`"minutes"`. -/
theorem C10_cooking_time_idempotent (v : String) :
    validate_cooking_time (validate_cooking_time v) = validate_cooking_time v :=
  validate_cooking_time_of_ends (validate_cooking_time v)
    (validate_cooking_time_ends v)

/-- C3: Recipe construction validates and normalizes its fields:
difficulty `"EASY"` normalizes to `"easy"`, difficulty `"extreme"` and
servings `0` fail validation, cooking time `"30"` normalizes to
`"30 minutes"` while `"30 minutes"` is unchanged; in general the
difficulty must lower-case to one of easy/medium/hard, servings must be
at least 1, and a cooking time not ending in `"minutes"` gets
`" minutes"` appended instead of being rejected. -/
theorem C3_recipe_validation :
    mkRecipe "Pancakes" ["flour"] ["mix"] ["Whisk"] "30" "EASY" 2 =
      .ok { name := "Pancakes", ingredients := ["flour"], steps := ["mix"],
            required_tools := ["Whisk"], cooking_time := "30 minutes",
            difficulty := "easy", servings := 2 } ∧
    (mkRecipe "Pancakes" ["flour"] ["mix"] ["Whisk"] "30" "extreme" 2).isOk = false ∧
    (mkRecipe "Pancakes" ["flour"] ["mix"] ["Whisk"] "30" "easy" 0).isOk = false ∧
    validate_cooking_time "30" = "30 minutes" ∧
    validate_cooking_time "30 minutes" = "30 minutes" ∧
    (∀ v : String, (validate_difficulty v).isOk = true ↔
      (pyLower v = "easy" ∨ pyLower v = "medium" ∨ pyLower v = "hard")) ∧
    (∀ v : Int, (validate_servings v).isOk = true ↔ 1 ≤ v) ∧
    (∀ v : String, validate_cooking_time v =
      if pyEndsWith (pyStrip v) "minutes" then v else pyStrip v ++ " minutes") :=
  ⟨by rfl, by decide, by decide, by decide, by decide,
   validate_difficulty_isOk, validate_servings_isOk, fun v => rfl⟩

/-- C4: `ToolSet.can_cook_recipe` returns true for an absent recipe, and
otherwise returns true exactly when every lower-cased required tool name
occurs among the lower-cased available tool names; in particular with
available tools `["Knife", "Frying Pan"]` it accepts `["knife"]`, rejects
`["oven"]`, and accepts an absent recipe. -/
theorem C4_can_cook_recipe :
    (∀ ts : ToolSet, ts.can_cook_recipe none = true) ∧
    (∀ (ts : ToolSet) (r : Recipe),
      ts.can_cook_recipe (some r) = true ↔
        ∀ t ∈ r.required_tools,
          pyLower t ∈ ts.available_tools.map pyLower) ∧
    knifePanToolSet.can_cook_recipe (some recipeKnife) = true ∧
    knifePanToolSet.can_cook_recipe (some recipeOven) = false ∧
    knifePanToolSet.can_cook_recipe none = true := by
  refine ⟨fun ts => rfl, ?_, by decide, by decide, by decide⟩
  intro ts r
  simp [ToolSet.can_cook_recipe, List.all_eq_true]

/-- C1: when the classification oracle returns false for a query, the
pipeline on the initial state leaves the state untouched by
`check_research_needed`, `do_research` and `parse_results`, all other
fields keep their defaults, `final_response` is the fixed refusal text and
`reasoning_chain` ends up with exactly the one entry appended by
`classify_query`. -/
theorem C1_non_cooking_pipeline (o : Oracles) (q : String)
    (h : o.classify q = false) :
    check_research_needed o (classify_query o (initState q)) =
      classify_query o (initState q) ∧
    do_research o (classify_query o (initState q)) =
      classify_query o (initState q) ∧
    parse_results o (classify_query o (initState q)) =
      classify_query o (initState q) ∧
    runPipeline o (initState q) = .ok
      { query := q, is_cooking_related := false, needs_research := false,
        research_results := [], recipe := none,
        reasoning_chain := ["Query classification: not cooking-related"],
        final_response := some refusalText } := by
  refine ⟨?_, ?_, ?_, ?_⟩ <;>
    simp [check_research_needed, do_research, parse_results, runPipeline,
      classify_query, generate_response, initState, h]

/-- C1 witness: the non-cooking pipeline behaviour at the rejecting oracles
and the query `"hello"`. -/
theorem C1_witness :
    oReject.classify "hello" = false ∧
    (check_research_needed oReject (classify_query oReject (initState "hello")) =
      classify_query oReject (initState "hello") ∧
    do_research oReject (classify_query oReject (initState "hello")) =
      classify_query oReject (initState "hello") ∧
    parse_results oReject (classify_query oReject (initState "hello")) =
      classify_query oReject (initState "hello") ∧
    runPipeline oReject (initState "hello") = .ok
      { query := "hello", is_cooking_related := false, needs_research := false,
        research_results := [], recipe := none,
        reasoning_chain := ["Query classification: not cooking-related"],
        final_response := some refusalText }) :=
  ⟨rfl, C1_non_cooking_pipeline oReject "hello" rfl⟩

/-- C2: for a state needing research, `do_research` with an empty search
result sets `research_results` to `[]` and appends no reasoning-chain
entry (and `parse_results` then skips on the result), while a non-empty
search result is stored and exactly `"Performed recipe research"` is
appended. -/
theorem C2_do_research_asymmetry (o : Oracles) (s : AgentState)
    (h : s.needs_research = true) :
    (o.search s.query = [] →
      do_research o s = { s with research_results := [] } ∧
      parse_results o (do_research o s) = do_research o s) ∧
    (o.search s.query ≠ [] →
      do_research o s =
        { s with research_results := o.search s.query,
                 reasoning_chain :=
                   s.reasoning_chain ++ ["Performed recipe research"] }) := by
  constructor
  · intro he
    constructor
    · simp [do_research, h, he]
    · simp [do_research, parse_results, h, he]
  · intro hne
    simp [do_research, h, List.isEmpty_iff, hne]

/-- C2 witness: the empty and the non-empty search branch at concrete
oracles and a concrete state needing research. -/
theorem C2_witness :
    ({ initState "soup" with needs_research := true } : AgentState).needs_research = true ∧
    ((oEmptySearch.search "soup" = [] →
      do_research oEmptySearch { initState "soup" with needs_research := true } =
        { { initState "soup" with needs_research := true } with research_results := [] } ∧
      parse_results oEmptySearch
          (do_research oEmptySearch { initState "soup" with needs_research := true }) =
        do_research oEmptySearch { initState "soup" with needs_research := true }) ∧
    (oEmptySearch.search "soup" ≠ [] →
      do_research oEmptySearch { initState "soup" with needs_research := true } =
        { { initState "soup" with needs_research := true } with
            research_results := oEmptySearch.search "soup",
            reasoning_chain :=
              ({ initState "soup" with needs_research := true } : AgentState).reasoning_chain
                ++ ["Performed recipe research"] })) :=
  ⟨rfl, C2_do_research_asymmetry oEmptySearch { initState "soup" with needs_research := true } rfl⟩

/-- C7: for a cooking-related state, `generate_response` fails (and sets no
`final_response`) when the response-generation oracle returns empty
content, and on non-empty content it sets `final_response` to that content
and appends exactly `"Generated final response"`. -/
theorem C7_generate_response_empty (o : Oracles) (s : AgentState)
    (h : s.is_cooking_related = true) :
    (o.genResponse s.query s.recipe defaultToolSet = "" →
      generate_response o s = .error "Response generation failed") ∧
    (o.genResponse s.query s.recipe defaultToolSet ≠ "" →
      generate_response o s = .ok
        { s with
          final_response := some (o.genResponse s.query s.recipe defaultToolSet),
          reasoning_chain := s.reasoning_chain ++ ["Generated final response"] }) := by
  constructor
  · intro he
    simp [generate_response, h, he]
  · intro hne
    simp [generate_response, h, hne]

/-- C7 witness: the empty-content failure and the success branch, at
concrete oracles and the initial cooking-related state for `"risotto"`. -/
theorem C7_witness :
    ({ initState "risotto" with is_cooking_related := true } : AgentState).is_cooking_related
        = true ∧
    ((oEmptyResponse.genResponse "risotto" none defaultToolSet = "" →
      generate_response oEmptyResponse { initState "risotto" with is_cooking_related := true } =
        .error "Response generation failed") ∧
    (oEmptyResponse.genResponse "risotto" none defaultToolSet ≠ "" →
      generate_response oEmptyResponse { initState "risotto" with is_cooking_related := true } =
        .ok { { initState "risotto" with is_cooking_related := true } with
              final_response := some (oEmptyResponse.genResponse "risotto" none defaultToolSet),
              reasoning_chain :=
                ({ initState "risotto" with is_cooking_related := true } : AgentState).reasoning_chain
                  ++ ["Generated final response"] })) :=
  ⟨rfl, C7_generate_response_empty oEmptyResponse
    { initState "risotto" with is_cooking_related := true } rfl⟩

/-! ### Query preservation and skip lemmas for the steps -/

theorem classify_query_query (o : Oracles) (s : AgentState) :
    (classify_query o s).query = s.query := by
  simp [classify_query]

theorem check_research_needed_query (o : Oracles) (s : AgentState) :
    (check_research_needed o s).query = s.query := by
  unfold check_research_needed
  split <;> rfl

theorem do_research_query (o : Oracles) (s : AgentState) :
    (do_research o s).query = s.query := by
  by_cases h1 : s.needs_research = true
  · by_cases h2 : (o.search s.query).isEmpty = true
    · simp [do_research, h1, h2]
    · simp [do_research, h1, h2]
  · simp [do_research, h1]

theorem parse_results_query (o : Oracles) (s : AgentState) :
    (parse_results o s).query = s.query := by
  unfold parse_results
  split <;> rfl

theorem generate_response_query (o : Oracles) (s s' : AgentState)
    (h : generate_response o s = .ok s') : s'.query = s.query := by
  by_cases hc : s.is_cooking_related = true
  · by_cases hr : o.genResponse s.query s.recipe defaultToolSet = ""
    · simp [generate_response, hc, hr] at h
    · simp [generate_response, hc, hr] at h
      subst h
      rfl
  · simp [generate_response, hc] at h
    subst h
    rfl

theorem runPipeline_query (o : Oracles) (s s' : AgentState)
    (h : runPipeline o s = .ok s') : s'.query = s.query := by
  unfold runPipeline at h
  have hq := generate_response_query o _ s' h
  rw [parse_results_query, do_research_query, check_research_needed_query,
    classify_query_query] at hq
  exact hq

theorem check_research_needed_skip (o : Oracles) (s : AgentState)
    (h : s.is_cooking_related = false) : check_research_needed o s = s := by
  simp [check_research_needed, h]

theorem do_research_skip (o : Oracles) (s : AgentState)
    (h : s.needs_research = false) : do_research o s = s := by
  simp [do_research, h]

theorem parse_results_skip (o : Oracles) (s : AgentState)
    (h : s.research_results = []) : parse_results o s = s := by
  simp [parse_results, h]

theorem classify_query_chain (o : Oracles) (s : AgentState) :
    (classify_query o s).reasoning_chain =
      s.reasoning_chain ++ classifyEntry o s := by
  simp [classify_query, classifyEntry]

theorem check_research_needed_chain (o : Oracles) (s : AgentState) :
    (check_research_needed o s).reasoning_chain =
      s.reasoning_chain ++ checkEntries o s := by
  by_cases h : s.is_cooking_related = true <;>
    simp [check_research_needed, checkEntries, h]

theorem do_research_chain (o : Oracles) (s : AgentState) :
    (do_research o s).reasoning_chain =
      s.reasoning_chain ++ researchEntries o s := by
  by_cases h1 : s.needs_research = true
  · by_cases h2 : (o.search s.query).isEmpty = true <;>
      simp [do_research, researchEntries, h1, h2]
  · simp [do_research, researchEntries, h1]

theorem parse_results_chain (o : Oracles) (s : AgentState) :
    (parse_results o s).reasoning_chain =
      s.reasoning_chain ++ parseEntries o s := by
  by_cases h : s.research_results.isEmpty = true <;>
    simp [parse_results, parseEntries, h]

theorem generate_response_chain (o : Oracles) (s s' : AgentState)
    (h : generate_response o s = .ok s') :
    s'.reasoning_chain = s.reasoning_chain ++ respondEntries s := by
  by_cases hc : s.is_cooking_related = true
  · by_cases hr : o.genResponse s.query s.recipe defaultToolSet = ""
    · simp [generate_response, hc, hr] at h
    · simp [generate_response, hc, hr] at h
      subst h
      simp [respondEntries, hc]
  · simp [generate_response, hc] at h
    subst h
    simp [respondEntries, hc]

theorem runPipeline_chain (o : Oracles) (s0 s' : AgentState)
    (h : runPipeline o s0 = .ok s') :
    s'.reasoning_chain = s0.reasoning_chain ++ appendedEntries o s0 := by
  unfold runPipeline at h
  rw [generate_response_chain o _ s' h, parse_results_chain, do_research_chain,
    check_research_needed_chain, classify_query_chain, appendedEntries]
  simp [List.append_assoc]

/-- C9: none of the five pipeline steps modifies the `query` field, and
the whole pipeline leaves `query` equal to the initial query. -/
theorem C9_query_immutable (o : Oracles) (s : AgentState) :
    (classify_query o s).query = s.query ∧
    (check_research_needed o s).query = s.query ∧
    (do_research o s).query = s.query ∧
    (parse_results o s).query = s.query ∧
    (∀ s', generate_response o s = .ok s' → s'.query = s.query) ∧
    (∀ s', runPipeline o s = .ok s' → s'.query = s.query) :=
  ⟨classify_query_query o s, check_research_needed_query o s,
   do_research_query o s, parse_results_query o s,
   fun s' h => generate_response_query o s s' h,
   fun s' h => runPipeline_query o s s' h⟩

/-- C8: the pipeline is a deterministic function of the query and the
oracle answers: two runs with the same oracles on the same query produce
the same reasoning chain and the same final response. -/
theorem C8_deterministic (o : Oracles) (q : String) (s1 s2 : AgentState)
    (h1 : runPipeline o (initState q) = .ok s1)
    (h2 : runPipeline o (initState q) = .ok s2) :
    s1.reasoning_chain = s2.reasoning_chain ∧
    s1.final_response = s2.final_response := by
  rw [h1] at h2
  injection h2 with h
  subst h
  exact ⟨rfl, rfl⟩

/-- C8 witness: two identical successful runs at the full-success oracles
on `"risotto"`. -/
theorem C8_witness :
    fullRunState.reasoning_chain = fullRunState.reasoning_chain ∧
    fullRunState.final_response = fullRunState.final_response :=
  C8_deterministic oFull "risotto" fullRunState fullRunState (by rfl) (by rfl)

/-- C5 counterexample: with a cooking-related query needing research whose
search returns empty, the successful run's reasoning chain has 3 entries,
while 4 steps performed non-skipped work (`classify_query`,
`check_research_needed`, `do_research` — which called the search oracle
and assigned `research_results` — and `generate_response`): the chain
length does not equal the number of non-skipped steps. -/
theorem C5_counterexample :
    (runPipeline oEmptySearch (initState "How do I make bread?")).map
        (fun s => s.reasoning_chain.length) = .ok 3 ∧
    nonSkippedCount oEmptySearch (initState "How do I make bread?") = 4 :=
  ⟨rfl, rfl⟩

/-- C5 (amended): after a successful pipeline run the reasoning chain is
an append-only extension of the initial chain, its length grows by exactly
the number of steps that appended an entry (`do_research` on an empty
search result and the refusal branch of `generate_response` perform work
but append nothing), and any step skipping because its gate is false
leaves the state unchanged. -/
theorem C5_reasoning_chain_invariant (o : Oracles) (s0 s' : AgentState)
    (h : runPipeline o s0 = .ok s') :
    s'.reasoning_chain = s0.reasoning_chain ++ appendedEntries o s0 ∧
    s'.reasoning_chain.length =
      s0.reasoning_chain.length + (appendedEntries o s0).length ∧
    (∀ s : AgentState, s.is_cooking_related = false →
      check_research_needed o s = s) ∧
    (∀ s : AgentState, s.needs_research = false → do_research o s = s) ∧
    (∀ s : AgentState, s.research_results = [] → parse_results o s = s) := by
  refine ⟨runPipeline_chain o s0 s' h, ?_, check_research_needed_skip o,
    do_research_skip o, parse_results_skip o⟩
  rw [runPipeline_chain o s0 s' h, List.length_append]

/-- C5 witness: the amended chain-length equation at the full-success
oracles on `"risotto"`. -/
theorem C5_witness :
    fullRunState.reasoning_chain.length =
      (initState "risotto").reasoning_chain.length +
        (appendedEntries oFull (initState "risotto")).length :=
  (C5_reasoning_chain_invariant oFull (initState "risotto") fullRunState
    (by rfl)).2.1

/-- C6 counterexample: an error of the underlying search is not suppressed
to an empty result list; `search_recipes` propagates it. -/
theorem C6_counterexample :
    search_recipes ddgsFail "pasta" = .error "DuckDuckGoSearchException" ∧
    (search_recipes ddgsFail "pasta" = .ok [] → False) :=
  ⟨rfl, fun h => Except.noConfusion h⟩

/-- C6 (amended): when the underlying search succeeds, `search_recipes`
returns the bodies of its results in order, and at most 3 of them whenever
the underlying search honors `max_results=3`; when the underlying search
raises, the error propagates unchanged. -/
theorem C6_search_recipes
    (ddgsText : String → Nat → Except String (List SearchResult))
    (q : String) :
    (∀ e, ddgsText ("recipe " ++ q) 3 = .error e →
      search_recipes ddgsText q = .error e) ∧
    (∀ res, ddgsText ("recipe " ++ q) 3 = .ok res →
      search_recipes ddgsText q = .ok (res.map SearchResult.body) ∧
      (res.length ≤ 3 → (res.map SearchResult.body).length ≤ 3)) := by
  constructor
  · intro e he
    unfold search_recipes
    rw [he]
    rfl
  · intro res hres
    refine ⟨?_, ?_⟩
    · unfold search_recipes
      rw [hres]
      rfl
    · intro hlen
      simpa using hlen

end Cooking
